import Mathlib

/-!
Shallow embedding of `src/model_promotion.py` (repository `sample_code_mlops`):
the `BaselinePromoter` orchestration that promotes an MLflow model version to
the `baseline` alias, together with theorems settling the specification claims.

Modelling choices:
* The MLflow client is an oracle: each client operation receives the history of
  registry calls issued so far (so its answer may vary over time, modelling
  eventual consistency and transient transport failures) and returns either a
  value or a raised `MlflowException`, modelled as `Except String` with the
  exception's message.
* Every orchestrator method threads an explicit trace of the registry calls it
  issues, in order.  `sleep(5)` has no observable effect in the embedding.
* Python substring containment (`prefix in alias`, the operator `in` on
  strings) is embedded as `pyIn`.
* A second, "well-behaved" client `stateClient` interprets the same oracle
  interface against a functional registry state, replaying the call history;
  it is used for claims quantified over registry states.
-/

/-- Head test used by substring containment: does `needle` occur at the very
start of `hay`? -/
def charsHasInit : List Char → List Char → Bool
  | [], _ => true
  | _ :: _, [] => false
  | a :: as, b :: bs => a == b && charsHasInit as bs

/-- Does `needle` occur contiguously anywhere in `hay`? -/
def charsHasSub (needle : List Char) : List Char → Bool
  | [] => charsHasInit needle []
  | b :: bs => charsHasInit needle (b :: bs) || charsHasSub needle bs

/-- Python substring containment `needle in hay` on strings. -/
def pyIn (needle hay : String) : Bool := charsHasSub needle.data hay.data

/-- Source constant `BASELINE_ALIAS = "baseline"`. -/
def BASELINE_ALIAS : String := "baseline"

/-- Source constant `CHALLENGER_ALIAS_PREFIX = "challenger"` (the Lean name
drops the last word of the Python name). -/
def CHALLENGER_ALIAS_MARK : String := "challenger"

/-- MLflow `ModelVersion` entity: the fields the promotion code reads. -/
structure ModelVersion where
  name : String
  version : String
  aliases : List String
deriving DecidableEq

/-- Source dataclass `Result`: success or error message from a registry call. -/
structure Result where
  message : String
  error : Bool
deriving DecidableEq

/-- One registry call, as recorded in the trace. -/
inductive Call where
  | getByAlias (name a : String)
  | getVersion (name version : String)
  | setAlias (name a version : String)
  | deleteAlias (name a : String)
deriving DecidableEq

/-- Mutating registry calls are the alias writes: set-alias and delete-alias. -/
def Call.isMutating : Call → Bool
  | .setAlias _ _ _ => true
  | .deleteAlias _ _ => true
  | _ => false

/-- The MLflow client as an oracle over the call history.  `Except.error m`
models `MlflowException` with message `m` being raised by the call. -/
structure MlflowClient where
  get_model_version_by_alias : List Call → String → String → Except String ModelVersion
  get_model_version : List Call → String → String → Except String ModelVersion
  set_registered_model_alias : List Call → String → String → String → Except String Unit
  delete_registered_model_alias : List Call → String → String → Except String Unit

/-- Source class `Configuration` (pydantic): one promotion request.  The
literal-type constraints of the Python fields are not needed by the claims and
are left as plain strings. -/
structure Configuration where
  model_version : String
  model_env : String
  model_name : String
  model_description : Option String
  model_alias : String
deriving DecidableEq

/-- Source class `BaselinePromoter`: its constructor-initialised fields. -/
structure BaselinePromoter where
  client : MlflowClient
  env : String
  model_version : String
  model_alias : String
  model_name : String

/-- Source `BaselinePromoter.__init__`: copy the config fields. -/
def BaselinePromoter.ofConfig (client : MlflowClient) (config : Configuration)
    (env : String) : BaselinePromoter :=
  { client := client, env := env, model_version := config.model_version,
    model_alias := config.model_alias, model_name := config.model_name }

/-- Source `_get_model_by_alias`: look a model up by name and alias, swallowing
every `MlflowException` into `none`. -/
def BaselinePromoter.get_model_by_alias (p : BaselinePromoter) (tr : List Call)
    (model_name model_alias : String) : Option ModelVersion × List Call :=
  (match p.client.get_model_version_by_alias tr model_name model_alias with
    | Except.ok m => some m
    | Except.error _ => none,
   tr ++ [Call.getByAlias model_name model_alias])

/-- Source `_add_alias_to_model`: set the alias on a version, returning a
`Result` (never raising). -/
def BaselinePromoter.add_alias_to_model (p : BaselinePromoter) (tr : List Call)
    (model_name model_version model_alias : String) : Result × List Call :=
  (match p.client.set_registered_model_alias tr model_name model_alias model_version with
    | Except.ok _ =>
        { message := "We have SUCESSFULLY added alias: `" ++ model_alias ++ "` to version: `"
            ++ model_version ++ "` of the model name: `" ++ model_name ++ "`\n",
          error := false }
    | Except.error e =>
        { message := "We FAILED to add alias: `" ++ model_alias ++ "` to version: `"
            ++ model_version ++ "` of the model name: `" ++ model_name ++ "`\n Exception: " ++ e,
          error := true },
   tr ++ [Call.setAlias model_name model_alias model_version])

/-- Source `_remove_alias_from_model`: delete an alias from a registered model,
returning a `Result` (never raising). -/
def BaselinePromoter.remove_alias_from_model (p : BaselinePromoter) (tr : List Call)
    (model_name model_alias : String) : Result × List Call :=
  (match p.client.delete_registered_model_alias tr model_name model_alias with
    | Except.ok _ =>
        { message := "We have SUCESSFULLY deleted model alias: `" ++ model_alias
            ++ "` from model name: `" ++ model_name ++ "`\n",
          error := false }
    | Except.error e =>
        { message := "We have FAILED to remove model alias: `" ++ model_alias
            ++ "` from model name: `" ++ model_name ++ "`. Exception: " ++ e,
          error := true },
   tr ++ [Call.deleteAlias model_name model_alias])

/-- Source `_remove_challenger_aliases_from_model`: fetch the version record
(unguarded: a raised `MlflowException` propagates, hence `Except`), then issue
one delete-alias call for every alias containing `pfx`; delete results are only
logged, never consulted.  The Python parameter `prefix` (default
`CHALLENGER_ALIAS_PREFIX`) is `pfx`; callers in this file pass the default
explicitly. -/
def BaselinePromoter.remove_challenger_aliases_from_model (p : BaselinePromoter)
    (tr : List Call) (model_name model_version pfx : String) :
    Except String Unit × List Call :=
  match p.client.get_model_version tr model_name model_version with
  | Except.error e => (Except.error e, tr ++ [Call.getVersion model_name model_version])
  | Except.ok found_model =>
      (Except.ok (),
       found_model.aliases.foldl
         (fun acc a =>
           if pyIn pfx a then (p.remove_alias_from_model acc model_name a).2 else acc)
         (tr ++ [Call.getVersion model_name model_version]))

/-- Source `_verify_that_baseline_matches_version`: re-fetch the alias holder
and check alias presence, version equality and absence of challenger aliases. -/
def BaselinePromoter.verify_that_baseline_matches_version (p : BaselinePromoter)
    (tr : List Call) (model_name model_alias model_version : String) :
    Result × List Call :=
  match p.get_model_by_alias tr model_name model_alias with
  | (none, tr2) =>
      ({ message := "Weird, no baseline model was not found on the registry for model name: "
           ++ model_name,
         error := true }, tr2)
  | (some found_model, tr2) =>
      let challenger_aliases := found_model.aliases.filter (fun a => pyIn CHALLENGER_ALIAS_MARK a)
      let has_challenger_aliases : Bool := if challenger_aliases.length > 0 then true else false
      let message := "model name: `" ++ model_name ++ "`; model version: `" ++ model_version
        ++ "`; model alias: `" ++ model_alias ++ "`"
      if found_model.version == model_version && !has_challenger_aliases then
        ({ message := "We have SUCESSFULLY verified that the baseline model has the correct version. "
             ++ message,
           error := false }, tr2)
      else if found_model.version == model_version && has_challenger_aliases then
        ({ message := "WARNING: Baseline model still have some challengers aliases: "
             ++ toString challenger_aliases ++ ". Check: " ++ message ++ ".",
           error := true }, tr2)
      else
        ({ message := "We FAILED to verify that the baseline model has the correct model version. Please check: "
             ++ message ++ ".\n",
           error := true }, tr2)

/-- Rendering of a `ModelVersion` into the rollback log line (stand-in for the
Python repr interpolation). -/
def mvShow (m : ModelVersion) : String :=
  "<ModelVersion: aliases=" ++ toString m.aliases ++ ", name=" ++ m.name
    ++ ", version=" ++ m.version ++ ">"

/-- Python string interpolation of an `Optional[ModelVersion]`. -/
def pyShowOpt : Option ModelVersion → String
  | none => "None"
  | some m => mvShow m

/-- The `ROLLBACK INSTRUCTION` text logged before the `RuntimeError` is raised,
built from the two pre-promotion snapshots. -/
def rollbackText (current_baseline_version : Option ModelVersion)
    (current_challenger_version : ModelVersion) : String :=
  "ROLLBACK INSTRUCTION:\nGo to the MLFlow model registry to manually rollback:\n - Make sure the baseline model has the following alias and version: "
    ++ (pyShowOpt current_baseline_version
    ++ ("\n - Make sure the challenger model has the following alias and version: "
    ++ (mvShow current_challenger_version
    ++ "\n - Manual rerun this Github Actions pipeline to restart the promotion process.\n")))

/-- Observable outcome of `start_model_promotion`: normal return, a propagated
`MlflowException` (from an unguarded `get_model_version`), or the final
`RuntimeError` together with the rollback text logged beside it. -/
inductive Outcome where
  | success
  | mlflowError (msg : String)
  | runtimeError (msg rollback : String)
deriving DecidableEq

/-- Python truthiness test `found_model and found_model.version == self.model_version`
of the idempotency check. -/
def idemHit : Option ModelVersion → String → Bool
  | some fm, v => fm.version == v
  | none, _ => false

/-- Source `start_model_promotion`: snapshot reads, idempotency check,
challenger cleanup, alias reassignment, propagation wait (no observable
effect), verification, resolution. -/
def BaselinePromoter.start_model_promotion (p : BaselinePromoter) : Outcome × List Call :=
  match p.get_model_by_alias [] p.model_name BASELINE_ALIAS with
  | (current_baseline_version, tr1) =>
    match p.client.get_model_version tr1 p.model_name p.model_version with
    | Except.error e =>
        (Outcome.mlflowError e, tr1 ++ [Call.getVersion p.model_name p.model_version])
    | Except.ok current_challenger_version =>
      let tr2 := tr1 ++ [Call.getVersion p.model_name p.model_version]
      match p.get_model_by_alias tr2 p.model_name p.model_alias with
      | (found_model, tr3) =>
        if idemHit found_model p.model_version then (Outcome.success, tr3)
        else
          match p.remove_challenger_aliases_from_model tr3 p.model_name p.model_version
              CHALLENGER_ALIAS_MARK with
          | (Except.error e, tr4) => (Outcome.mlflowError e, tr4)
          | (Except.ok _, tr4) =>
            match p.add_alias_to_model tr4 p.model_name p.model_version p.model_alias with
            | (_adding, tr5) =>
              match p.verify_that_baseline_matches_version tr5 p.model_name p.model_alias
                  p.model_version with
              | (verification, tr6) =>
                if verification.error then
                  (Outcome.runtimeError verification.message
                     (rollbackText current_baseline_version current_challenger_version), tr6)
                else (Outcome.success, tr6)

/-- One version registered in the functional registry model. -/
structure RegEntry where
  name : String
  version : String
  aliases : List String
deriving DecidableEq

/-- A registry state: the list of registered versions. -/
abbrev RegistryState := List RegEntry

/-- Registry semantics of `get_model_version_by_alias`: the version currently
holding the alias, or a raised not-found exception. -/
def lookupByAlias (s : RegistryState) (n a : String) : Except String ModelVersion :=
  match s.find? (fun e => e.name == n && e.aliases.contains a) with
  | some e => Except.ok { name := e.name, version := e.version, aliases := e.aliases }
  | none => Except.error ("INVALID_PARAMETER_VALUE: Registered model alias " ++ a ++ " not found.")

/-- Registry semantics of `get_model_version`: the record for a name/version
pair, or a raised not-found exception. -/
def lookupVersion (s : RegistryState) (n v : String) : Except String ModelVersion :=
  match s.find? (fun e => e.name == n && e.version == v) with
  | some e => Except.ok { name := e.name, version := e.version, aliases := e.aliases }
  | none => Except.error ("RESOURCE_DOES_NOT_EXIST: Model Version (name=" ++ n ++ ", version=" ++ v ++ ") not found")

/-- State change performed by one registry call: set-alias detaches the alias
from every version of the model and attaches it to the named version (when that
version exists); delete-alias detaches it; reads change nothing. -/
def applyCall (s : RegistryState) : Call → RegistryState
  | Call.getByAlias _ _ => s
  | Call.getVersion _ _ => s
  | Call.setAlias n a v =>
      if s.any (fun e => e.name == n && e.version == v) then
        s.map (fun e =>
          if e.name == n then
            if e.version == v then
              { e with aliases := e.aliases.filter (fun x => x != a) ++ [a] }
            else { e with aliases := e.aliases.filter (fun x => x != a) }
          else e)
      else s
  | Call.deleteAlias n a =>
      s.map (fun e =>
        if e.name == n then { e with aliases := e.aliases.filter (fun x => x != a) } else e)

/-- Replay a call history over an initial registry state. -/
def runHistory (s : RegistryState) (h : List Call) : RegistryState :=
  h.foldl applyCall s

/-- The well-behaved client over a registry state: every call is answered from
the state obtained by replaying the history, per the registry contract. -/
def stateClient (s : RegistryState) : MlflowClient where
  get_model_version_by_alias h n a := lookupByAlias (runHistory s h) n a
  get_model_version h n v := lookupVersion (runHistory s h) n v
  set_registered_model_alias h n _a v :=
    if (runHistory s h).any (fun e => e.name == n && e.version == v) then Except.ok ()
    else Except.error ("RESOURCE_DOES_NOT_EXIST: Model Version (name=" ++ n ++ ", version=" ++ v ++ ") not found")
  delete_registered_model_alias h n a :=
    if (runHistory s h).any (fun e => e.name == n && e.aliases.contains a) then Except.ok ()
    else Except.error ("INVALID_PARAMETER_VALUE: Registered model alias " ++ a ++ " not found.")

/-- Promoter acting on a registry state, for the state-level claims. -/
def promoterOn (s : RegistryState) (model_name model_version model_alias env : String) :
    BaselinePromoter :=
  { client := stateClient s, env := env, model_version := model_version,
    model_alias := model_alias, model_name := model_name }

theorem charsHasInit_self_append (n t : List Char) : charsHasInit n (n ++ t) = true := by
  induction n with
  | nil => rfl
  | cons a as ih => simp [charsHasInit, ih]

theorem charsHasSub_of_init {n h : List Char} (hi : charsHasInit n h = true) :
    charsHasSub n h = true := by
  cases h with
  | nil => simpa [charsHasSub] using hi
  | cons b bs => simp [charsHasSub, hi]

theorem charsHasSub_append_left (pre : List Char) {n h : List Char}
    (hs : charsHasSub n h = true) : charsHasSub n (pre ++ h) = true := by
  induction pre with
  | nil => simpa using hs
  | cons a as ih => simp [charsHasSub, ih]

/-- A string is a Python-substring of any string that extends it on both sides. -/
theorem pyIn_middle (n pre post : String) : pyIn n (pre ++ (n ++ post)) = true := by
  have h1 : (pre ++ (n ++ post)).data = pre.data ++ (n.data ++ post.data) := by
    rw [String.data_append, String.data_append]
  unfold pyIn
  rw [h1]
  exact charsHasSub_append_left pre.data (charsHasSub_of_init (charsHasInit_self_append n.data post.data))

/-- The delete step appends exactly one delete-alias call to the trace. -/
theorem remove_alias_trace (p : BaselinePromoter) (t : List Call) (n a : String) :
    (p.remove_alias_from_model t n a).2 = t ++ [Call.deleteAlias n a] := rfl

/-- The trace of the challenger-cleanup loop: one delete-alias call is appended
for exactly the aliases containing `pfx`, in list order, whatever the client
answers to each deletion. -/
theorem cleanup_foldl_trace (p : BaselinePromoter) (model_name pfx : String) :
    ∀ (l : List String) (t : List Call),
      l.foldl (fun acc a =>
          if pyIn pfx a then (p.remove_alias_from_model acc model_name a).2 else acc) t
        = t ++ (l.filter (fun a => pyIn pfx a)).map (Call.deleteAlias model_name) := by
  intro l
  induction l with
  | nil => intro t; simp
  | cons x xs ih =>
      intro t
      by_cases hx : pyIn pfx x = true
      · have hstep : (if pyIn pfx x then (p.remove_alias_from_model t model_name x).2 else t)
            = t ++ [Call.deleteAlias model_name x] := by
          simp [hx, remove_alias_trace]
        rw [List.foldl_cons, hstep, ih]
        simp [List.filter_cons, hx]
      · have hstep : (if pyIn pfx x then (p.remove_alias_from_model t model_name x).2 else t)
            = t := by
          simp [hx]
        rw [List.foldl_cons, hstep, ih]
        simp [List.filter_cons, hx]

theorem filterNilAll {α : Type} {l : List α} {f : α → Bool} (h : l.filter f = []) :
    ∀ a ∈ l, f a = false := by
  intro a ha
  cases hfa : f a with
  | false => rfl
  | true =>
      have hmem : a ∈ l.filter f := List.mem_filter.mpr ⟨ha, hfa⟩
      rw [h] at hmem
      cases hmem

theorem filterNeNilExists {α : Type} {l : List α} {f : α → Bool} (h : l.filter f ≠ []) :
    ∃ a ∈ l, f a = true := by
  cases hfe : l.filter f with
  | nil => exact absurd hfe h
  | cons y ys =>
      have hy : y ∈ l.filter f := by rw [hfe]; exact List.mem_cons_self y ys
      have hm := List.mem_filter.mp hy
      exact ⟨y, hm.1, hm.2⟩

/-- C2: the post-write verification step succeeds if and only if the alias
lookup returns a version whose identifier equals the configured version and
which carries zero challenger-substring aliases; violating any one of the
three conditions makes the returned `Result` a failure. -/
theorem verification_succeeds_iff (p : BaselinePromoter) (tr : List Call)
    (model_name model_alias model_version : String) :
    (p.verify_that_baseline_matches_version tr model_name model_alias model_version).1.error
        = false
      ↔ ∃ mv : ModelVersion,
          p.client.get_model_version_by_alias tr model_name model_alias = Except.ok mv ∧
          mv.version = model_version ∧
          mv.aliases.filter (fun a => pyIn CHALLENGER_ALIAS_MARK a) = [] := by
  unfold BaselinePromoter.verify_that_baseline_matches_version BaselinePromoter.get_model_by_alias
  cases hres : p.client.get_model_version_by_alias tr model_name model_alias with
  | error e => simp
  | ok mv =>
      by_cases hv : mv.version = model_version
      · by_cases hc : mv.aliases.filter (fun a => pyIn CHALLENGER_ALIAS_MARK a) = []
        · simp [hv, hc]
          exact filterNilAll hc
        · have hlen : (mv.aliases.filter (fun a => pyIn CHALLENGER_ALIAS_MARK a)).length > 0 := by
            cases hfe : mv.aliases.filter (fun a => pyIn CHALLENGER_ALIAS_MARK a) with
            | nil => exact absurd hfe hc
            | cons y ys => simp
          simp [hv, hc, hlen]
          exact filterNeNilExists hc
      · have hb : (mv.version == model_version) = false := beq_eq_false_iff_ne.mpr hv
        simp [hb, hv]

/-- C5: once the cleanup fetch succeeds, exactly one delete-alias call is
issued per alias containing the challenger text, whatever the registry answers
to each deletion (so no deletion failure aborts the remaining deletions or the
step), and the step returns without raising; a record with zero challenger
aliases yields zero delete calls (its filter is empty). -/
theorem cleanup_one_delete_per_challenger (p : BaselinePromoter) (tr : List Call)
    (model_name model_version pfx : String) (found : ModelVersion)
    (h : p.client.get_model_version tr model_name model_version = Except.ok found) :
    p.remove_challenger_aliases_from_model tr model_name model_version pfx
      = (Except.ok (),
         (tr ++ [Call.getVersion model_name model_version])
           ++ (found.aliases.filter (fun a => pyIn pfx a)).map (Call.deleteAlias model_name)) := by
  unfold BaselinePromoter.remove_challenger_aliases_from_model
  rw [h]
  dsimp only
  rw [cleanup_foldl_trace]

/-- C5 witness: a record with aliases `["challenger_ar", "other"]` under a
client whose deletions all fail still gets exactly one delete call and the
step still succeeds. -/
def failingDeleteClient : MlflowClient where
  get_model_version_by_alias _ _ _ := Except.error "RESOURCE_DOES_NOT_EXIST: alias not found"
  get_model_version _ _ _ :=
    Except.ok { name := "ad_enrichment", version := "3", aliases := ["challenger_ar", "other"] }
  set_registered_model_alias _ _ _ _ := Except.ok ()
  delete_registered_model_alias _ _ _ := Except.error "PERMISSION_DENIED"

def failingDeletePromoter : BaselinePromoter :=
  { client := failingDeleteClient, env := "dev", model_version := "3",
    model_alias := "baseline", model_name := "ad_enrichment" }

theorem cleanup_one_delete_per_challenger_witness :
    failingDeletePromoter.client.get_model_version [] "ad_enrichment" "3"
        = Except.ok { name := "ad_enrichment", version := "3", aliases := ["challenger_ar", "other"] } ∧
    failingDeletePromoter.remove_challenger_aliases_from_model [] "ad_enrichment" "3"
        CHALLENGER_ALIAS_MARK
      = (Except.ok (),
         ([] ++ [Call.getVersion "ad_enrichment" "3"])
           ++ ((["challenger_ar", "other"].filter (fun a => pyIn CHALLENGER_ALIAS_MARK a)).map
                (Call.deleteAlias "ad_enrichment"))) :=
  ⟨rfl, cleanup_one_delete_per_challenger failingDeletePromoter [] "ad_enrichment" "3"
    CHALLENGER_ALIAS_MARK { name := "ad_enrichment", version := "3", aliases := ["challenger_ar", "other"] } rfl⟩

/-- C9: the alias lookup collapses every raised registry exception to `none`,
so any two runs of the verification step whose alias re-fetch raises — for any
two reasons whatever (transport failure, permission failure, genuine absence) —
return the identical "no baseline model" verification failure. -/
theorem alias_lookup_collapses_exceptions (p q : BaselinePromoter)
    (trp trq : List Call) (model_name model_alias model_version e1 e2 : String)
    (h1 : p.client.get_model_version_by_alias trp model_name model_alias = Except.error e1)
    (h2 : q.client.get_model_version_by_alias trq model_name model_alias = Except.error e2) :
    (p.get_model_by_alias trp model_name model_alias).1 = none ∧
    (p.verify_that_baseline_matches_version trp model_name model_alias model_version).1
      = (q.verify_that_baseline_matches_version trq model_name model_alias model_version).1 ∧
    (p.verify_that_baseline_matches_version trp model_name model_alias model_version).1
      = { message := "Weird, no baseline model was not found on the registry for model name: "
            ++ model_name,
          error := true } := by
  unfold BaselinePromoter.verify_that_baseline_matches_version BaselinePromoter.get_model_by_alias
  rw [h1, h2]
  exact ⟨rfl, rfl, rfl⟩

def transportFailClient : MlflowClient where
  get_model_version_by_alias _ _ _ := Except.error "TEMPORARILY_UNAVAILABLE: transport error"
  get_model_version _ _ _ := Except.ok { name := "ad_enrichment", version := "3", aliases := [] }
  set_registered_model_alias _ _ _ _ := Except.ok ()
  delete_registered_model_alias _ _ _ := Except.ok ()

def absenceClient : MlflowClient where
  get_model_version_by_alias _ _ _ := Except.error "INVALID_PARAMETER_VALUE: Registered model alias baseline not found."
  get_model_version _ _ _ := Except.ok { name := "ad_enrichment", version := "3", aliases := [] }
  set_registered_model_alias _ _ _ _ := Except.ok ()
  delete_registered_model_alias _ _ _ := Except.ok ()

def transportFailPromoter : BaselinePromoter :=
  { client := transportFailClient, env := "dev", model_version := "3",
    model_alias := "baseline", model_name := "ad_enrichment" }

def absencePromoter : BaselinePromoter :=
  { client := absenceClient, env := "dev", model_version := "3",
    model_alias := "baseline", model_name := "ad_enrichment" }

theorem alias_lookup_collapses_exceptions_witness :
    transportFailPromoter.client.get_model_version_by_alias [] "ad_enrichment" "baseline"
        = Except.error "TEMPORARILY_UNAVAILABLE: transport error" ∧
    (transportFailPromoter.verify_that_baseline_matches_version [] "ad_enrichment" "baseline" "3").1
      = (absencePromoter.verify_that_baseline_matches_version [] "ad_enrichment" "baseline" "3").1 :=
  ⟨rfl, (alias_lookup_collapses_exceptions transportFailPromoter absencePromoter [] []
      "ad_enrichment" "baseline" "3" "TEMPORARILY_UNAVAILABLE: transport error"
      "INVALID_PARAMETER_VALUE: Registered model alias baseline not found." rfl rfl).2.1⟩

/-- C10: challenger classification is substring containment, not a prefix
test, in both steps: on a fetched record carrying the single alias `a`,
cleanup issues a delete call exactly when "challenger" occurs anywhere in `a`,
and verification of a correct-version holder carrying the single alias `a`
fails exactly then; the alias "pre_challenger" does not start with
"challenger" yet is classified as a challenger. -/
theorem challenger_classification_is_substring (p : BaselinePromoter) (tr : List Call)
    (n v a : String) (found : ModelVersion)
    (hget : p.client.get_model_version tr n v = Except.ok found)
    (ha : found.aliases = [a]) :
    ((p.remove_challenger_aliases_from_model tr n v CHALLENGER_ALIAS_MARK).2
        = (tr ++ [Call.getVersion n v])
            ++ (if pyIn CHALLENGER_ALIAS_MARK a then [Call.deleteAlias n a] else [])) ∧
    (∀ (q : BaselinePromoter) (trq : List Call) (mal : String) (mv : ModelVersion),
        q.client.get_model_version_by_alias trq n mal = Except.ok mv →
        mv.version = v → mv.aliases = [a] →
        (q.verify_that_baseline_matches_version trq n mal v).1.error
          = pyIn CHALLENGER_ALIAS_MARK a) ∧
    charsHasInit CHALLENGER_ALIAS_MARK.data "pre_challenger".data = false ∧
    pyIn CHALLENGER_ALIAS_MARK "pre_challenger" = true := by
  refine ⟨?_, ?_, by decide, by decide⟩
  · unfold BaselinePromoter.remove_challenger_aliases_from_model
    rw [hget]
    dsimp only
    rw [cleanup_foldl_trace, ha]
    by_cases hpy : pyIn CHALLENGER_ALIAS_MARK a = true
    · simp [hpy]
    · simp [hpy]
  · intro q trq mal mv hok hmv hal
    unfold BaselinePromoter.verify_that_baseline_matches_version
      BaselinePromoter.get_model_by_alias
    rw [hok]
    dsimp only
    rw [hal]
    by_cases hpy : pyIn CHALLENGER_ALIAS_MARK a = true
    · simp [hpy, hmv]
    · simp [hpy, hmv]

def preChallengerMV : ModelVersion :=
  { name := "ad_enrichment", version := "3", aliases := ["pre_challenger"] }

def preChallengerClient : MlflowClient where
  get_model_version_by_alias _ _ _ := Except.ok preChallengerMV
  get_model_version _ _ _ := Except.ok preChallengerMV
  set_registered_model_alias _ _ _ _ := Except.ok ()
  delete_registered_model_alias _ _ _ := Except.ok ()

def preChallengerPromoter : BaselinePromoter :=
  { client := preChallengerClient, env := "dev", model_version := "3",
    model_alias := "baseline", model_name := "ad_enrichment" }

theorem challenger_classification_is_substring_witness :
    ((preChallengerPromoter.remove_challenger_aliases_from_model [] "ad_enrichment" "3"
        CHALLENGER_ALIAS_MARK).2
      = (([] : List Call) ++ [Call.getVersion "ad_enrichment" "3"])
          ++ (if pyIn CHALLENGER_ALIAS_MARK "pre_challenger" then
                [Call.deleteAlias "ad_enrichment" "pre_challenger"] else [])) ∧
    (preChallengerPromoter.verify_that_baseline_matches_version [] "ad_enrichment" "baseline"
        "3").1.error = pyIn CHALLENGER_ALIAS_MARK "pre_challenger" :=
  have h := challenger_classification_is_substring preChallengerPromoter [] "ad_enrichment" "3"
    "pre_challenger" preChallengerMV rfl rfl
  ⟨h.1, h.2.1 preChallengerPromoter [] "baseline" preChallengerMV rfl rfl rfl⟩

/-- A client whose get-version read succeeds for the pre-promotion snapshot but
raises a transport error on the cleanup re-fetch (history-dependent flakiness),
with the baseline alias absent throughout. -/
def flakyClient : MlflowClient where
  get_model_version_by_alias _ _ _ := Except.error "RESOURCE_DOES_NOT_EXIST: alias not found"
  get_model_version h _ _ :=
    if h.length ≤ 1 then Except.ok { name := "ad_enrichment", version := "3", aliases := [] }
    else Except.error "transport error"
  set_registered_model_alias _ _ _ _ := Except.ok ()
  delete_registered_model_alias _ _ _ := Except.ok ()

def flakyPromoter : BaselinePromoter :=
  { client := flakyClient, env := "dev", model_version := "3",
    model_alias := "baseline", model_name := "ad_enrichment" }

/-- C3 counterexample: under `flakyClient` the promotion aborts with a raised
`MlflowException` out of the challenger-cleanup step (the trace stops at the
cleanup fetch, before any set-alias or verification read), so a step other
than final verification raises. -/
theorem cleanup_step_can_raise :
    flakyPromoter.start_model_promotion
      = (Outcome.mlflowError "transport error",
         [Call.getByAlias "ad_enrichment" "baseline",
          Call.getVersion "ad_enrichment" "3",
          Call.getByAlias "ad_enrichment" "baseline",
          Call.getVersion "ad_enrichment" "3"]) ∧
    (∀ m rb : String,
        flakyPromoter.start_model_promotion.1 ≠ Outcome.runtimeError m rb) := by
  have h : flakyPromoter.start_model_promotion
      = (Outcome.mlflowError "transport error",
         [Call.getByAlias "ad_enrichment" "baseline",
          Call.getVersion "ad_enrichment" "3",
          Call.getByAlias "ad_enrichment" "baseline",
          Call.getVersion "ad_enrichment" "3"]) := by decide
  refine ⟨h, fun m rb hc => ?_⟩
  rw [congrArg Prod.fst h] at hc
  cases hc

/-- C3 amended: whenever the registry's get-version read never raises (so both
the unguarded snapshot fetch and the unguarded cleanup fetch succeed), the
promotion never propagates an `MlflowException`: the only abort left is the
`RuntimeError` raised on final verification failure. -/
theorem cleanup_never_errors_when_reads_succeed (p : BaselinePromoter)
    (h : ∀ tr : List Call,
        (p.client.get_model_version tr p.model_name p.model_version).isOk = true)
    (tr : List Call) (e : String) (tr4 : List Call) :
    p.remove_challenger_aliases_from_model tr p.model_name p.model_version
        CHALLENGER_ALIAS_MARK ≠ (Except.error e, tr4) := by
  unfold BaselinePromoter.remove_challenger_aliases_from_model
  cases hg : p.client.get_model_version tr p.model_name p.model_version with
  | error e1 =>
      have hh := h tr
      rw [hg] at hh
      cases hh
  | ok f =>
      intro hc
      cases hc

theorem no_raise_when_version_reads_succeed (p : BaselinePromoter)
    (h : ∀ tr : List Call,
        (p.client.get_model_version tr p.model_name p.model_version).isOk = true) :
    ∀ e : String, p.start_model_promotion.1 ≠ Outcome.mlflowError e := by
  intro e
  unfold BaselinePromoter.start_model_promotion
  split
  rename_i cbv tr1 heqA
  split
  · rename_i e1 heq1
    have hh := h tr1
    rw [heq1] at hh
    cases hh
  · rename_i c heq1
    dsimp only
    split
    · simp
    · split
      · rename_i e2 tr4 heqC
        exact fun _ => cleanup_never_errors_when_reads_succeed p h _ e2 tr4 heqC
      · rename_i u tr4 heqC
        split
        · simp
        · simp

def steadyClient : MlflowClient where
  get_model_version_by_alias _ _ _ := Except.error "RESOURCE_DOES_NOT_EXIST: alias not found"
  get_model_version _ _ _ :=
    Except.ok { name := "ad_enrichment", version := "3", aliases := [] }
  set_registered_model_alias _ _ _ _ := Except.ok ()
  delete_registered_model_alias _ _ _ := Except.ok ()

def steadyPromoter : BaselinePromoter :=
  { client := steadyClient, env := "dev", model_version := "3",
    model_alias := "baseline", model_name := "ad_enrichment" }

theorem no_raise_when_version_reads_succeed_witness :
    steadyPromoter.start_model_promotion.1 ≠ Outcome.mlflowError "transport error" :=
  no_raise_when_version_reads_succeed steadyPromoter (fun _ => rfl) "transport error"

theorem charsHasInit_append_right {n h : List Char} (t : List Char)
    (hi : charsHasInit n h = true) : charsHasInit n (h ++ t) = true := by
  induction n generalizing h with
  | nil => rfl
  | cons a as ih =>
      cases h with
      | nil => cases hi
      | cons b bs =>
          simp only [charsHasInit, Bool.and_eq_true] at hi
          simp only [List.cons_append, charsHasInit, Bool.and_eq_true]
          exact ⟨hi.1, ih hi.2⟩

theorem charsHasInit_refl (n : List Char) : charsHasInit n n = true := by
  induction n with
  | nil => rfl
  | cons a as ih => simp [charsHasInit, ih]

/-- Containment at the front survives extension on the right. -/
theorem pyIn_of_init_left (n a b : String) (h : charsHasInit n.data a.data = true) :
    pyIn n (a ++ b) = true := by
  unfold pyIn
  rw [String.data_append]
  exact charsHasSub_of_init (charsHasInit_append_right b.data h)

/-- Containment survives extension on the left. -/
theorem pyIn_append_left (pre n h : String) (hs : pyIn n h = true) :
    pyIn n (pre ++ h) = true := by
  unfold pyIn at hs ⊢
  rw [String.data_append]
  exact charsHasSub_append_left pre.data hs

/-- C4: when the run reaches verification and verification fails, the
promotion raises (outcome is the `RuntimeError`, not a silent return),
carrying the verification message, and the rollback text logged beside it is
built from the baseline and challenger snapshots taken at the start of the
run — histories that contain no mutating call — and contains the manual
rollback instruction, the rendered pre-promotion baseline holder and the
rendered pre-promotion record of the version being promoted. -/
theorem verification_failure_raises_with_rollback (p : BaselinePromoter)
    (c : ModelVersion) (tr4 : List Call)
    (hsnap : p.client.get_model_version
        (p.get_model_by_alias [] p.model_name BASELINE_ALIAS).2
        p.model_name p.model_version = Except.ok c)
    (hidem : idemHit
        (p.get_model_by_alias
          ((p.get_model_by_alias [] p.model_name BASELINE_ALIAS).2
            ++ [Call.getVersion p.model_name p.model_version])
          p.model_name p.model_alias).1 p.model_version = false)
    (hclean : p.remove_challenger_aliases_from_model
        (p.get_model_by_alias
          ((p.get_model_by_alias [] p.model_name BASELINE_ALIAS).2
            ++ [Call.getVersion p.model_name p.model_version])
          p.model_name p.model_alias).2
        p.model_name p.model_version CHALLENGER_ALIAS_MARK = (Except.ok (), tr4))
    (hver : (p.verify_that_baseline_matches_version
        (p.add_alias_to_model tr4 p.model_name p.model_version p.model_alias).2
        p.model_name p.model_alias p.model_version).1.error = true) :
    p.start_model_promotion.1
      = Outcome.runtimeError
          (p.verify_that_baseline_matches_version
            (p.add_alias_to_model tr4 p.model_name p.model_version p.model_alias).2
            p.model_name p.model_alias p.model_version).1.message
          (rollbackText (p.get_model_by_alias [] p.model_name BASELINE_ALIAS).1 c) ∧
    pyIn "ROLLBACK INSTRUCTION"
      (rollbackText (p.get_model_by_alias [] p.model_name BASELINE_ALIAS).1 c) = true ∧
    pyIn (pyShowOpt (p.get_model_by_alias [] p.model_name BASELINE_ALIAS).1)
      (rollbackText (p.get_model_by_alias [] p.model_name BASELINE_ALIAS).1 c) = true ∧
    pyIn (mvShow c)
      (rollbackText (p.get_model_by_alias [] p.model_name BASELINE_ALIAS).1 c) = true ∧
    ((p.get_model_by_alias [] p.model_name BASELINE_ALIAS).2
        ++ [Call.getVersion p.model_name p.model_version]).all
      (fun x => !x.isMutating) = true := by
  refine ⟨?_, ?_, ?_, ?_, by rfl⟩
  · unfold BaselinePromoter.start_model_promotion
    dsimp only [BaselinePromoter.get_model_by_alias, BaselinePromoter.add_alias_to_model,
      List.nil_append] at hsnap hidem hclean hver ⊢
    rw [hsnap]
    dsimp only
    rw [hidem]
    simp only [Bool.false_eq_true, if_false]
    rw [hclean]
    dsimp only
    split
    next => rfl
    next hFalse => exact absurd hver hFalse
  · exact pyIn_of_init_left _ _ _ (by decide)
  · unfold rollbackText
    exact pyIn_middle _ _ _
  · unfold rollbackText
    refine pyIn_append_left _ _ _ (pyIn_append_left _ _ _ (pyIn_append_left _ _ _ ?_))
    exact pyIn_of_init_left _ _ _ (charsHasInit_refl _)

theorem verification_failure_raises_with_rollback_witness :
    steadyPromoter.start_model_promotion.1
      = Outcome.runtimeError
          (steadyPromoter.verify_that_baseline_matches_version
            (steadyPromoter.add_alias_to_model
              [Call.getByAlias "ad_enrichment" "baseline", Call.getVersion "ad_enrichment" "3",
               Call.getByAlias "ad_enrichment" "baseline", Call.getVersion "ad_enrichment" "3"]
              steadyPromoter.model_name steadyPromoter.model_version
              steadyPromoter.model_alias).2
            steadyPromoter.model_name steadyPromoter.model_alias
            steadyPromoter.model_version).1.message
          (rollbackText
            (steadyPromoter.get_model_by_alias [] steadyPromoter.model_name BASELINE_ALIAS).1
            { name := "ad_enrichment", version := "3", aliases := [] }) :=
  (verification_failure_raises_with_rollback steadyPromoter
    { name := "ad_enrichment", version := "3", aliases := [] }
    [Call.getByAlias "ad_enrichment" "baseline", Call.getVersion "ad_enrichment" "3",
     Call.getByAlias "ad_enrichment" "baseline", Call.getVersion "ad_enrichment" "3"]
    rfl rfl rfl rfl).1

/-- C6: when the set-alias call of the alias-reassignment step fails, the
step's `Result` records the failure, yet the orchestrator still proceeds: the
final trace is the verification step's trace (so the verification re-fetch is
issued after the failed set-alias call), and the overall outcome is decided
solely by the verification result. -/
theorem set_alias_failure_does_not_abort (p : BaselinePromoter)
    (c : ModelVersion) (tr4 : List Call) (e : String)
    (hsnap : p.client.get_model_version
        (p.get_model_by_alias [] p.model_name BASELINE_ALIAS).2
        p.model_name p.model_version = Except.ok c)
    (hidem : idemHit
        (p.get_model_by_alias
          ((p.get_model_by_alias [] p.model_name BASELINE_ALIAS).2
            ++ [Call.getVersion p.model_name p.model_version])
          p.model_name p.model_alias).1 p.model_version = false)
    (hclean : p.remove_challenger_aliases_from_model
        (p.get_model_by_alias
          ((p.get_model_by_alias [] p.model_name BASELINE_ALIAS).2
            ++ [Call.getVersion p.model_name p.model_version])
          p.model_name p.model_alias).2
        p.model_name p.model_version CHALLENGER_ALIAS_MARK = (Except.ok (), tr4))
    (hset : p.client.set_registered_model_alias tr4 p.model_name p.model_alias
        p.model_version = Except.error e) :
    (p.add_alias_to_model tr4 p.model_name p.model_version p.model_alias).1.error = true ∧
    p.start_model_promotion.2
      = (p.verify_that_baseline_matches_version
          (tr4 ++ [Call.setAlias p.model_name p.model_alias p.model_version])
          p.model_name p.model_alias p.model_version).2 ∧
    ((p.verify_that_baseline_matches_version
          (tr4 ++ [Call.setAlias p.model_name p.model_alias p.model_version])
          p.model_name p.model_alias p.model_version).1.error = false →
        p.start_model_promotion.1 = Outcome.success) ∧
    ((p.verify_that_baseline_matches_version
          (tr4 ++ [Call.setAlias p.model_name p.model_alias p.model_version])
          p.model_name p.model_alias p.model_version).1.error = true →
        p.start_model_promotion.1
          = Outcome.runtimeError
              (p.verify_that_baseline_matches_version
                (tr4 ++ [Call.setAlias p.model_name p.model_alias p.model_version])
                p.model_name p.model_alias p.model_version).1.message
              (rollbackText (p.get_model_by_alias [] p.model_name BASELINE_ALIAS).1 c)) := by
  have hmain : p.start_model_promotion
      = ((if (p.verify_that_baseline_matches_version
              (tr4 ++ [Call.setAlias p.model_name p.model_alias p.model_version])
              p.model_name p.model_alias p.model_version).1.error = true
          then Outcome.runtimeError
              (p.verify_that_baseline_matches_version
                (tr4 ++ [Call.setAlias p.model_name p.model_alias p.model_version])
                p.model_name p.model_alias p.model_version).1.message
              (rollbackText (p.get_model_by_alias [] p.model_name BASELINE_ALIAS).1 c)
          else Outcome.success),
         (p.verify_that_baseline_matches_version
            (tr4 ++ [Call.setAlias p.model_name p.model_alias p.model_version])
            p.model_name p.model_alias p.model_version).2) := by
    unfold BaselinePromoter.start_model_promotion
    dsimp only [BaselinePromoter.get_model_by_alias, BaselinePromoter.add_alias_to_model,
      List.nil_append] at hsnap hidem hclean ⊢
    rw [hsnap]
    dsimp only
    rw [hidem]
    simp only [Bool.false_eq_true, if_false]
    rw [hclean]
    dsimp only
    split
    next hT => simp [hT]
    next hF => simp [hF]
  refine ⟨?_, ?_, ?_, ?_⟩
  · unfold BaselinePromoter.add_alias_to_model
    rw [hset]
  · rw [hmain]
  · intro hv
    rw [hmain]
    simp [hv]
  · intro hv
    rw [hmain]
    simp [hv]

def setFailClient : MlflowClient where
  get_model_version_by_alias _ _ _ := Except.error "RESOURCE_DOES_NOT_EXIST: alias not found"
  get_model_version _ _ _ :=
    Except.ok { name := "ad_enrichment", version := "3", aliases := [] }
  set_registered_model_alias _ _ _ _ := Except.error "PERMISSION_DENIED"
  delete_registered_model_alias _ _ _ := Except.ok ()

def setFailPromoter : BaselinePromoter :=
  { client := setFailClient, env := "dev", model_version := "3",
    model_alias := "baseline", model_name := "ad_enrichment" }

def setFailTrace4 : List Call :=
  [Call.getByAlias "ad_enrichment" "baseline", Call.getVersion "ad_enrichment" "3",
   Call.getByAlias "ad_enrichment" "baseline", Call.getVersion "ad_enrichment" "3"]

theorem set_alias_failure_does_not_abort_witness :
    (setFailPromoter.add_alias_to_model setFailTrace4 setFailPromoter.model_name
        setFailPromoter.model_version setFailPromoter.model_alias).1.error = true ∧
    setFailPromoter.start_model_promotion.2
      = (setFailPromoter.verify_that_baseline_matches_version
          (setFailTrace4 ++ [Call.setAlias setFailPromoter.model_name
            setFailPromoter.model_alias setFailPromoter.model_version])
          setFailPromoter.model_name setFailPromoter.model_alias
          setFailPromoter.model_version).2 :=
  have h := set_alias_failure_does_not_abort setFailPromoter
    { name := "ad_enrichment", version := "3", aliases := [] }
    setFailTrace4 "PERMISSION_DENIED" rfl rfl rfl rfl
  ⟨h.1, h.2.1⟩

/-- If some version of model `n` holds alias `al` and that holder's version
identifier is `v`, then the version record `(n, v)` exists in the registry. -/
theorem lookup_version_of_alias_holder (s : RegistryState) (n al v : String)
    (mv : ModelVersion)
    (h1 : lookupByAlias s n al = Except.ok mv) (h2 : mv.version = v) :
    ∃ w : ModelVersion, lookupVersion s n v = Except.ok w := by
  unfold lookupByAlias at h1
  cases hf : s.find? (fun e => e.name == n && e.aliases.contains al) with
  | none => rw [hf] at h1; cases h1
  | some entry =>
      rw [hf] at h1
      have hq := List.find?_some hf
      have hmem := List.mem_of_find?_eq_some hf
      have hand := (Bool.and_eq_true _ _).mp hq
      have hname : entry.name = n := by
        have := hand.1
        exact beq_iff_eq.mp this
      have hmv := Except.ok.inj h1
      have hvv := congrArg ModelVersion.version hmv
      dsimp only at hvv
      have hver : entry.version = v := by rw [hvv, h2]
      have hsome : (s.find? (fun e => e.name == n && e.version == v)).isSome :=
        List.find?_isSome.mpr ⟨entry, hmem, by simp [hname, hver]⟩
      unfold lookupVersion
      cases hfv : s.find? (fun e => e.name == n && e.version == v) with
      | none => rw [hfv] at hsome; cases hsome
      | some w =>
          exact ⟨{ name := w.name, version := w.version, aliases := w.aliases }, rfl⟩

/-- C1: on a registry state where the version currently holding the configured
target alias already has the configured version identifier, the promotion
returns success immediately after the three reads and the trace contains zero
mutating calls. -/
theorem idempotent_promote_returns_success_no_mutation (s : RegistryState)
    (cfg : Configuration) (env : String) (mv : ModelVersion)
    (h1 : lookupByAlias s cfg.model_name cfg.model_alias = Except.ok mv)
    (h2 : mv.version = cfg.model_version) :
    (BaselinePromoter.ofConfig (stateClient s) cfg env).start_model_promotion
      = (Outcome.success,
         [Call.getByAlias cfg.model_name BASELINE_ALIAS,
          Call.getVersion cfg.model_name cfg.model_version,
          Call.getByAlias cfg.model_name cfg.model_alias]) ∧
    (BaselinePromoter.ofConfig (stateClient s) cfg env).start_model_promotion.2.filter
        Call.isMutating = [] := by
  obtain ⟨w, hw⟩ := lookup_version_of_alias_holder s cfg.model_name cfg.model_alias
      cfg.model_version mv h1 h2
  have hmain : (BaselinePromoter.ofConfig (stateClient s) cfg env).start_model_promotion
      = (Outcome.success,
         [Call.getByAlias cfg.model_name BASELINE_ALIAS,
          Call.getVersion cfg.model_name cfg.model_version,
          Call.getByAlias cfg.model_name cfg.model_alias]) := by
    unfold BaselinePromoter.start_model_promotion
    dsimp only [BaselinePromoter.ofConfig, BaselinePromoter.get_model_by_alias, stateClient,
      runHistory, List.foldl, applyCall, List.nil_append, List.cons_append]
    rw [hw]
    dsimp only
    rw [h1]
    dsimp only [idemHit]
    rw [h2]
    simp
  exact ⟨hmain, by rw [hmain]; rfl⟩

def idemState : RegistryState :=
  [{ name := "ad_enrichment", version := "3", aliases := ["baseline"] }]

def idemConfig : Configuration :=
  { model_version := "3", model_env := "dev", model_name := "ad_enrichment",
    model_description := none, model_alias := "baseline" }

theorem idempotent_promote_returns_success_no_mutation_witness :
    (BaselinePromoter.ofConfig (stateClient idemState) idemConfig "dev").start_model_promotion
      = (Outcome.success,
         [Call.getByAlias "ad_enrichment" BASELINE_ALIAS,
          Call.getVersion "ad_enrichment" "3",
          Call.getByAlias "ad_enrichment" "baseline"]) :=
  (idempotent_promote_returns_success_no_mutation idemState idemConfig "dev"
    { name := "ad_enrichment", version := "3", aliases := ["baseline"] } rfl rfl).1

/-- C8: the unguarded snapshot get-version read happens before the idempotency
check: on any registry state with no record for the configured name/version
pair, the promotion raises the `MlflowException` of that read and its trace
stops after the two snapshot reads — the idempotency lookup is never issued
and no normal outcome is produced. -/
theorem missing_version_raises_before_idempotency_check (s : RegistryState)
    (cfg : Configuration) (env : String)
    (h : ∀ e ∈ s, ¬(e.name = cfg.model_name ∧ e.version = cfg.model_version)) :
    (BaselinePromoter.ofConfig (stateClient s) cfg env).start_model_promotion
      = (Outcome.mlflowError
           ("RESOURCE_DOES_NOT_EXIST: Model Version (name=" ++ cfg.model_name
             ++ ", version=" ++ cfg.model_version ++ ") not found"),
         [Call.getByAlias cfg.model_name BASELINE_ALIAS,
          Call.getVersion cfg.model_name cfg.model_version]) := by
  have hfind : s.find?
      (fun e => e.name == cfg.model_name && e.version == cfg.model_version) = none := by
    rw [List.find?_eq_none]
    intro x hx
    simp only [Bool.and_eq_true, beq_iff_eq]
    exact h x hx
  have hlv : lookupVersion s cfg.model_name cfg.model_version
      = Except.error ("RESOURCE_DOES_NOT_EXIST: Model Version (name=" ++ cfg.model_name
          ++ ", version=" ++ cfg.model_version ++ ") not found") := by
    unfold lookupVersion
    rw [hfind]
  unfold BaselinePromoter.start_model_promotion
  dsimp only [BaselinePromoter.ofConfig, BaselinePromoter.get_model_by_alias, stateClient,
    runHistory, List.foldl, applyCall, List.nil_append, List.cons_append]
  rw [hlv]

theorem missing_version_raises_before_idempotency_check_witness :
    (BaselinePromoter.ofConfig (stateClient []) idemConfig "dev").start_model_promotion
      = (Outcome.mlflowError
           "RESOURCE_DOES_NOT_EXIST: Model Version (name=ad_enrichment, version=3) not found",
         [Call.getByAlias "ad_enrichment" "baseline",
          Call.getVersion "ad_enrichment" "3"]) :=
  missing_version_raises_before_idempotency_check [] idemConfig "dev" (by simp)

def c7state (bv : String) : RegistryState :=
  [{ name := "ad_enrichment", version := "3", aliases := ["challenger_ar", "challenger_expX"] },
   { name := "ad_enrichment", version := bv, aliases := ["baseline"] }]

def c7stateRev (bv : String) : RegistryState :=
  [{ name := "ad_enrichment", version := "3", aliases := ["challenger_expX", "challenger_ar"] },
   { name := "ad_enrichment", version := bv, aliases := ["baseline"] }]

def c7promoter (bv : String) : BaselinePromoter :=
  promoterOn (c7state bv) "ad_enrichment" "3" "baseline" "dev"

def c7promoterRev (bv : String) : BaselinePromoter :=
  promoterOn (c7stateRev bv) "ad_enrichment" "3" "baseline" "dev"

/-- C7: promoting version "3" which holds exactly the two challenger aliases,
with the baseline held by a different version `bv`, issues exactly two
delete-alias calls (one per challenger alias, in the registry's alias order),
both strictly before the single set-alias call, and the run succeeds; with the
registry reporting the two aliases in the opposite order the run still
succeeds and the final registry state is identical. -/
theorem two_challenger_deletes_before_set (bv : String) (h : bv ≠ "3") :
    (c7promoter bv).start_model_promotion
      = (Outcome.success,
         [Call.getByAlias "ad_enrichment" "baseline",
          Call.getVersion "ad_enrichment" "3",
          Call.getByAlias "ad_enrichment" "baseline",
          Call.getVersion "ad_enrichment" "3",
          Call.deleteAlias "ad_enrichment" "challenger_ar",
          Call.deleteAlias "ad_enrichment" "challenger_expX",
          Call.setAlias "ad_enrichment" "baseline" "3",
          Call.getByAlias "ad_enrichment" "baseline"]) ∧
    (c7promoter bv).start_model_promotion.2.filter Call.isMutating
      = [Call.deleteAlias "ad_enrichment" "challenger_ar",
         Call.deleteAlias "ad_enrichment" "challenger_expX",
         Call.setAlias "ad_enrichment" "baseline" "3"] ∧
    (c7promoterRev bv).start_model_promotion.1 = Outcome.success ∧
    runHistory (c7state bv) (c7promoter bv).start_model_promotion.2
      = runHistory (c7stateRev bv) (c7promoterRev bv).start_model_promotion.2 := by
  have hb : (bv == "3") = false := beq_eq_false_iff_ne.mpr h
  have hp1 : pyIn CHALLENGER_ALIAS_MARK "challenger_ar" = true := rfl
  have hp2 : pyIn CHALLENGER_ALIAS_MARK "challenger_expX" = true := rfl
  have hp3 : pyIn CHALLENGER_ALIAS_MARK "baseline" = false := rfl
  refine ⟨?_, ?_, ?_, ?_⟩ <;>
    simp [c7promoter, c7promoterRev, promoterOn, c7state, c7stateRev,
      BaselinePromoter.start_model_promotion, BaselinePromoter.get_model_by_alias,
      BaselinePromoter.add_alias_to_model, BaselinePromoter.remove_alias_from_model,
      BaselinePromoter.remove_challenger_aliases_from_model,
      BaselinePromoter.verify_that_baseline_matches_version,
      stateClient, runHistory, applyCall, lookupByAlias, lookupVersion, idemHit,
      List.find?, List.contains, List.filter, List.foldl, List.any, List.map,
      hb, hp1, hp2, hp3, Call.isMutating, BASELINE_ALIAS]

theorem two_challenger_deletes_before_set_witness :
    ("2" : String) ≠ "3" ∧
    (c7promoter "2").start_model_promotion.2.filter Call.isMutating
      = [Call.deleteAlias "ad_enrichment" "challenger_ar",
         Call.deleteAlias "ad_enrichment" "challenger_expX",
         Call.setAlias "ad_enrichment" "baseline" "3"] :=
  ⟨by decide, (two_challenger_deletes_before_set "2" (by decide)).2.1⟩
